import Mathlib

/-!
Shallow embedding of `PollReader.py`: a CSV parse-then-aggregate pipeline over
an in-memory columnar table with three query operations.

Python floats are idealised as exact rationals (`ℚ`); Python strings are
`List Char`.  Python exceptions are modelled by the inductive `PyErr`, which
records exactly the information the raised exception carries.
-/

set_option maxRecDepth 4000

abbrev Chars := List Char

/-- Whitespace characters recognised by Python `str.strip()` / `str.split()`
(restricted to the ASCII whitespace relevant to this data format). -/
def isPyWs (c : Char) : Bool :=
  c == ' ' || c == '\t' || c == '\n' || c == '\r' || c == '\x0b' || c == '\x0c'

/-- Python `s.strip()`: remove leading and trailing whitespace. -/
def pyStrip (s : Chars) : Chars :=
  ((s.dropWhile isPyWs).reverse.dropWhile isPyWs).reverse

/-- Helper for `pySplitComma`: `cur` holds the current field reversed. -/
def pySplitCommaAux : Chars → Chars → List Chars
  | [], cur => [cur.reverse]
  | ',' :: rest, cur => cur.reverse :: pySplitCommaAux rest []
  | c :: rest, cur => pySplitCommaAux rest (c :: cur)

/-- Python `s.split(',')`: split on every comma, keeping empty fields
(`''.split(',') == ['']`). -/
def pySplitComma (s : Chars) : List Chars := pySplitCommaAux s []

/-- Helper for `pySplitWs`: `cur` holds the current token reversed. -/
def pySplitWsAux : Chars → Chars → List Chars
  | [], [] => []
  | [], cur => [cur.reverse]
  | c :: rest, cur =>
    if isPyWs c then
      if cur = [] then pySplitWsAux rest []
      else cur.reverse :: pySplitWsAux rest []
    else pySplitWsAux rest (c :: cur)

/-- Python `s.split()` with no argument: split on runs of whitespace and drop
empty tokens (`''.split() == []`). -/
def pySplitWs (s : Chars) : List Chars := pySplitWsAux s []

def isDigitCh (c : Char) : Bool := '0' ≤ c && c ≤ '9'

def digitVal (c : Char) : Nat := c.toNat - 48

/-- Value of a digit string, most significant first. -/
def digitsVal (l : Chars) : Nat := l.foldl (fun a c => 10 * a + digitVal c) 0

/-- Core of Python `int(s)` after stripping: optional sign followed by a
non-empty run of decimal digits (digit-group underscores are not modelled,
they do not occur in this data format). -/
def pyIntCore : Chars → Option Int
  | '+' :: rest =>
      if rest ≠ [] ∧ rest.all isDigitCh then some (digitsVal rest) else none
  | '-' :: rest =>
      if rest ≠ [] ∧ rest.all isDigitCh then some (-(digitsVal rest : Int)) else none
  | l => if l ≠ [] ∧ l.all isDigitCh then some (digitsVal l) else none

/-- Python `int(s)`: strips surrounding whitespace itself, then parses an
optionally signed decimal integer; `none` models the `ValueError`. -/
def pyInt (s : Chars) : Option Int := pyIntCore (pyStrip s)

/-- Mantissa of a Python float literal: `digits [. digits]`, `digits.`, or
`.digits`, needing at least one digit overall. -/
def parseMantissa (l : Chars) : Option ℚ :=
  match l.span isDigitCh with
  | (ip, []) => if ip = [] then none else some (digitsVal ip : ℚ)
  | (ip, '.' :: rest) =>
      match rest.span isDigitCh with
      | (fp, []) =>
          if ip = [] ∧ fp = [] then none
          else some ((digitsVal ip : ℚ) + (digitsVal fp : ℚ) / (10 : ℚ) ^ fp.length)
      | _ => none
  | _ => none

/-- Unsigned Python float literal: mantissa with an optional `e`/`E` exponent. -/
def parseUnsignedFloat (l : Chars) : Option ℚ :=
  match l.span (fun c => !(c == 'e' || c == 'E')) with
  | (mant, []) => parseMantissa mant
  | (mant, _ :: expPart) =>
      match parseMantissa mant, pyIntCore expPart with
      | some m, some e => some (m * (10 : ℚ) ^ e)
      | _, _ => none

/-- Python `float(s)` idealised over `ℚ`: strips whitespace, then parses an
optionally signed decimal literal with optional exponent (`inf`/`nan` and the
rounding to binary doubles are not modelled; the data format uses only short
decimal literals, which this grammar covers exactly). -/
def pyFloat (s : Chars) : Option ℚ :=
  match pyStrip s with
  | '+' :: rest => parseUnsignedFloat rest
  | '-' :: rest => Option.map Neg.neg (parseUnsignedFloat rest)
  | l => parseUnsignedFloat l

/-- The information carried by the Python exceptions `build_data_dict` and the
queries can raise: `IndexError` from `parts[k]`, `ValueError` from `int()` /
`float()` (carrying the offending token), `ValueError` from unpacking
`a, b = l.split()` (carrying the token count), and `ValueError` from `max()`
on an empty sequence.  No variant carries a line number, because the raised
exceptions do not. -/
inductive PyErr where
  | indexError
  | intValueError (tok : Chars)
  | floatValueError (tok : Chars)
  | unpackError (got : Nat)
  | maxEmpty
deriving DecidableEq

/-- Python `l[n]` on a list: the value, or `IndexError`. -/
def pyIndex {α : Type} (l : List α) (n : Nat) : Except PyErr α :=
  match l.get? n with
  | some x => Except.ok x
  | none => Except.error PyErr.indexError

/-- One parsed row: the six typed fields of one data line. -/
structure Row where
  month : Chars
  date : Int
  sample : Int
  sampleType : Chars
  harris : ℚ
  trump : ℚ
deriving DecidableEq

/-- The body of the per-line block of `build_data_dict` after
`parts = i.strip().split(',')`: field extraction and conversion, in the order
the Python statements execute (lines 62-70 of `PollReader.py`). -/
def parseParts (parts : List Chars) : Except PyErr Row :=
  match pyIndex parts 0 with
  | Except.error e => Except.error e
  | Except.ok month =>
    match pyIndex parts 1 with
    | Except.error e => Except.error e
    | Except.ok p1 =>
      match pyInt p1 with
      | none => Except.error (PyErr.intValueError p1)
      | some date =>
        match pyIndex parts 2 with
        | Except.error e => Except.error e
        | Except.ok p2 =>
          match pySplitWs (pyStrip p2) with
          | [sample_num_str, sample_type] =>
            (match pyInt sample_num_str with
             | none => Except.error (PyErr.intValueError sample_num_str)
             | some sample =>
               match pyIndex parts 3 with
               | Except.error e => Except.error e
               | Except.ok p3 =>
                 match pyFloat p3 with
                 | none => Except.error (PyErr.floatValueError p3)
                 | some harris =>
                   match pyIndex parts 4 with
                   | Except.error e => Except.error e
                   | Except.ok p4 =>
                     match pyFloat p4 with
                     | none => Except.error (PyErr.floatValueError p4)
                     | some trump =>
                       Except.ok ⟨month, date, sample, sample_type, harris, trump⟩)
          | toks => Except.error (PyErr.unpackError toks.length)

/-- Parsing of one raw line `i`: `parts = i.strip().split(',')` followed by
`parseParts`. -/
def parseRow (i : Chars) : Except PyErr Row :=
  parseParts (pySplitComma (pyStrip i))

deriving instance DecidableEq for Except

/-- The columnar table `self.data_dict`: six parallel sequences, one per field,
as set up by the constructor and filled by `build_data_dict`. -/
structure DataDict where
  month : List Chars
  date : List Int
  sample : List Int
  sampleType : List Chars
  harrisResult : List ℚ
  trumpResult : List ℚ
deriving DecidableEq

/-- `data_dict` as the constructor initialises it: six empty lists. -/
def emptyDataDict : DataDict := ⟨[], [], [], [], [], []⟩

/-- Lines 73-78 of `PollReader.py`: append the six fields of one parsed row to
the six sequences. -/
def appendRow (d : DataDict) (r : Row) : DataDict :=
  ⟨d.month ++ [r.month], d.date ++ [r.date], d.sample ++ [r.sample],
   d.sampleType ++ [r.sampleType], d.harrisResult ++ [r.harris],
   d.trumpResult ++ [r.trump]⟩

/-- The loop of `build_data_dict` over the data lines.  Each line is parsed and
appended; the first line whose parsing raises aborts the loop with that
exception, and the rows appended so far remain in the dictionary (the Python
loop mutates `self.data_dict` in place). -/
def buildFrom (d : DataDict) : List Chars → Option PyErr × DataDict
  | [] => (none, d)
  | l :: ls =>
    match parseRow l with
    | Except.error e => (some e, d)
    | Except.ok r => buildFrom (appendRow d r) ls

/-- `build_data_dict`: iterate the per-line block over `self.raw_data[1:]`
(the first raw line, the header, is discarded).  The result is the exception
raised (if any) together with the final state of `self.data_dict`. -/
def build_data_dict (d : DataDict) (raw : List Chars) : Option PyErr × DataDict :=
  buildFrom d (raw.drop 1)

/-- Python `max` on a list of floats: `ValueError` on an empty sequence,
otherwise the running maximum of the elements. -/
def pyMax : List ℚ → Except PyErr ℚ
  | [] => Except.error PyErr.maxEmpty
  | x :: xs => Except.ok (xs.foldl max x)

/-- Round to the nearest integer, ties going to the even integer: the rounding
`%.1f` applies at the last kept digit. -/
def rndHalfEven (q : ℚ) : ℤ :=
  if q - ⌊q⌋ < 1/2 then ⌊q⌋
  else if 1/2 < q - ⌊q⌋ then ⌊q⌋ + 1
  else if ⌊q⌋ % 2 = 0 then ⌊q⌋ else ⌊q⌋ + 1

/-- Decimal digits of `n`, most significant first; the first argument is fuel
(`n` itself suffices). -/
def natDigitsGo : Nat → Nat → Chars → Chars
  | _, 0, acc => acc
  | 0, _, acc => acc
  | fuel + 1, n, acc => natDigitsGo fuel (n / 10) (Char.ofNat (48 + n % 10) :: acc)

def natDigits (n : Nat) : Chars :=
  if n = 0 then ['0'] else natDigitsGo n n []

/-- Python `f"{q:.1f}"` idealised over `ℚ`: round half-to-even at one decimal
place and print sign, integer part, `.`, and one digit.  (The `-0.0` a Python
negative zero would print, and double rounding, are not modelled; the queries
feed only exact rationals in.) -/
def fmt1f (q : ℚ) : Chars :=
  let n := rndHalfEven (q * 10)
  let s := natDigits (n.natAbs / 10) ++ ['.', Char.ofNat (48 + n.natAbs % 10)]
  if n < 0 then '-' :: s else s

/-- `f"{v*100:.1f}%"`: the percentage rendering shared by all three branches of
`highest_polling_candidate`. -/
def pct1 (v : ℚ) : Chars := fmt1f (v * 100) ++ ['%']

/-- Lines 92-100 of `PollReader.py`: maxima of the two result columns, the
`1e-12` near-equality test, and the formatted winner string. -/
def highest_polling_candidate (d : DataDict) : Except PyErr Chars :=
  match pyMax d.harrisResult with
  | Except.error e => Except.error e
  | Except.ok max_h =>
    match pyMax d.trumpResult with
    | Except.error e => Except.error e
    | Except.ok max_t =>
      if |max_h - max_t| < 1 / 10 ^ 12 then
        Except.ok ("EVEN ".data ++ pct1 max_h)
      else if max_h > max_t then
        Except.ok ("Harris ".data ++ pct1 max_h)
      else
        Except.ok ("Trump ".data ++ pct1 max_t)

/-- The likely-voter sample-type code `'LV'`. -/
def lvCode : Chars := "LV".data

/-- The idiom `sum(l) / len(l) if l else 0.0`. -/
def avgOr0 (l : List ℚ) : ℚ :=
  if l = [] then 0 else l.sum / (l.length : ℚ)

/-- The rows of the table as `zip(sample type, Harris result, Trump result)`
triples (Python `zip` truncates to the shortest sequence). -/
def tableRows (d : DataDict) : List (Chars × ℚ × ℚ) :=
  d.sampleType.zip (d.harrisResult.zip d.trumpResult)

/-- One iteration of the loop of `likely_voter_polling_average`: append the
Harris and Trump results when the row's sample type is `'LV'`. -/
def lvStep (acc : List ℚ × List ℚ) (r : Chars × ℚ × ℚ) : List ℚ × List ℚ :=
  if r.1 = lvCode then (acc.1 ++ [r.2.1], acc.2 ++ [r.2.2]) else acc

/-- The accumulation loop of `likely_voter_polling_average` over the rows. -/
def lvLoop (rows : List (Chars × ℚ × ℚ)) : List ℚ × List ℚ :=
  rows.foldl lvStep ([], [])

/-- Lines 111-121 of `PollReader.py`. -/
def likely_voter_polling_average (d : DataDict) : ℚ × ℚ :=
  let vals := lvLoop (tableRows d)
  (avgOr0 vals.1, avgOr0 vals.2)

/-- Lines 135-149 of `PollReader.py`: `h[:30]` is `take 30` and `h[-30:]` is
`drop (length - 30)` (both degrade to the whole list when it is shorter
than 30). -/
def polling_history_change (d : DataDict) : ℚ × ℚ :=
  let h := d.harrisResult
  let t := d.trumpResult
  let latest_h := h.take 30
  let latest_t := t.take 30
  let earliest_h := h.drop (h.length - 30)
  let earliest_t := t.drop (t.length - 30)
  (avgOr0 latest_h - avgOr0 earliest_h, avgOr0 latest_t - avgOr0 earliest_t)

/-- The method `highest_polling_candidate` as a transformer of the object
state: its body (lines 92-100) reads `self.data_dict` and contains no
assignment to it, so the post-state is the pre-state. -/
def highest_polling_candidate_m (d : DataDict) : Except PyErr Chars × DataDict :=
  (highest_polling_candidate d, d)

/-- The method `likely_voter_polling_average` as a transformer of the object
state: its body (lines 111-121) only reads `self.data_dict`. -/
def likely_voter_polling_average_m (d : DataDict) : (ℚ × ℚ) × DataDict :=
  (likely_voter_polling_average d, d)

/-- The method `polling_history_change` as a transformer of the object state:
its body (lines 135-149) only reads `self.data_dict`. -/
def polling_history_change_m (d : DataDict) : (ℚ × ℚ) × DataDict :=
  (polling_history_change d, d)

/-- Spec-side: the table rows whose sample type equals the likely-voter code. -/
def lvRows (d : DataDict) : List (Chars × ℚ × ℚ) :=
  (tableRows d).filter (fun r => r.1 = lvCode)

/-- Spec-side: all six sequences of the table have length `n`. -/
def allSixLen (d : DataDict) (n : Nat) : Prop :=
  d.month.length = n ∧ d.date.length = n ∧ d.sample.length = n ∧
  d.sampleType.length = n ∧ d.harrisResult.length = n ∧ d.trumpResult.length = n

instance (d : DataDict) (n : Nat) : Decidable (allSixLen d n) := by
  unfold allSixLen; infer_instance

/-- A header line in the shape of the reference CSV (discarded by
`build_data_dict`). -/
def hdrLine : Chars := "month,date,sample,Harris result,Trump result".data

/-- A well-formed data line. -/
def goodLineA : Chars := "October,15,1500 LV,0.5,0.5".data

/-- Another well-formed data line. -/
def goodLineB : Chars := "November,1,900 RV,0.6,0.4".data

/-- A data line whose date field is not an integer. -/
def badIntLine : Chars := "October,xx,1500 LV,0.5,0.5".data

/-- A data line with six comma-separated fields instead of five. -/
def sixFieldLine : Chars := "October,15,1500 LV,0.5,0.5,junk".data

/-- An input whose second data line is empty: header, empty line, good line. -/
def c4Input : List Chars := [hdrLine, [], goodLineA]

/-- An input whose data lines are all well-formed. -/
def c4GoodInput : List Chars := [hdrLine, goodLineA, goodLineB]

/-- Header, one good line, then the bad line: the bad line is data line 2. -/
def c7InputA : List Chars := [hdrLine, goodLineA, badIntLine]

/-- Header, three good lines, then the same bad line: now data line 4. -/
def c7InputB : List Chars := [hdrLine, goodLineA, goodLineA, goodLineA, badIntLine]

/-- Header, a good line, then a malformed line. -/
def c8Input : List Chars := [hdrLine, goodLineB, badIntLine]

/-- A data line whose result fields are the percentages `57.0` and `53.2`. -/
def c5Line : Chars := "October,15,1500 LV,57.0,53.2".data

/-- A data line with integer-literal result fields. -/
def c5IntLine : Chars := "October,15,1500 LV,57,53".data

/-- The row `c5IntLine` parses to. -/
def c5IntRow : Row := ⟨"October".data, 15, 1500, "LV".data, 57, 53⟩

/-- A three-row table with Harris results `[0.50, 0.57, 0.42]` and Trump
results `[0.53, 0.48, 0.40]`. -/
def wMax : DataDict :=
  ⟨["October".data, "October".data, "November".data], [15, 12, 1], [1500, 900, 1200],
   ["LV".data, "RV".data, "LV".data],
   [1/2, 57/100, 21/50], [53/100, 12/25, 2/5]⟩

/-- A three-row table with rows `(LV, 0.50, 0.45)`, `(RV, 0.60, 0.40)`,
`(LV, 0.48, 0.47)`. -/
def wLV : DataDict :=
  ⟨["October".data, "October".data, "November".data], [15, 12, 1], [1500, 900, 1200],
   ["LV".data, "RV".data, "LV".data],
   [1/2, 3/5, 12/25], [9/20, 2/5, 47/100]⟩

/-- A two-row table whose sample types are both `'RV'`. -/
def wRV : DataDict :=
  ⟨["October".data, "November".data], [15, 1], [1500, 900],
   ["RV".data, "RV".data], [1/2, 3/5], [9/20, 2/5]⟩

/-- A data line whose packed sample field has no whitespace, so it splits
into one token instead of two. -/
def badPackLine : Chars := "October,15,1500LV,0.5,0.5".data

/-- A data line whose sample-size token is not an integer. -/
def badSampleLine : Chars := "October,15,15x0 LV,0.5,0.5".data

/-- A data line whose Harris result field is not numeric. -/
def badFloatLine : Chars := "October,15,1500 LV,abc,0.5".data

theorem le_foldl_max_init (xs : List ℚ) : ∀ x : ℚ, x ≤ xs.foldl max x := by
  induction xs with
  | nil => intro x; exact le_refl x
  | cons c cs ih => intro x; exact le_trans (le_max_left x c) (ih (max x c))

theorem foldl_max_mem (xs : List ℚ) : ∀ x : ℚ, xs.foldl max x ∈ x :: xs := by
  induction xs with
  | nil => intro x; simp
  | cons c cs ih =>
    intro x
    rw [List.foldl_cons]
    rcases List.mem_cons.mp (ih (max x c)) with h1 | h1
    · rw [h1]
      rcases max_choice x c with h2 | h2 <;> rw [h2] <;> simp
    · exact List.mem_cons_of_mem _ (List.mem_cons_of_mem _ h1)

theorem le_foldl_max (xs : List ℚ) : ∀ x y : ℚ, y ∈ x :: xs → y ≤ xs.foldl max x := by
  induction xs with
  | nil =>
    intro x y hy
    rw [List.mem_singleton] at hy
    exact le_of_eq hy
  | cons c cs ih =>
    intro x y hy
    rw [List.foldl_cons]
    rcases List.mem_cons.mp hy with h1 | h1
    · subst h1
      exact le_trans (le_max_left y c) (le_foldl_max_init cs (max y c))
    · rcases List.mem_cons.mp h1 with h2 | h2
      · subst h2
        exact le_trans (le_max_right x y) (le_foldl_max_init cs (max x y))
      · exact ih (max x c) y (List.mem_cons_of_mem _ h2)

/-- `pyMax` on a non-empty list returns a maximum of the list. -/
theorem pyMax_spec (l : List ℚ) (h : l ≠ []) :
    ∃ m, pyMax l = Except.ok m ∧ m ∈ l ∧ ∀ y ∈ l, y ≤ m := by
  cases l with
  | nil => exact absurd rfl h
  | cons x xs =>
    exact ⟨xs.foldl max x, rfl, foldl_max_mem xs x, fun y hy => le_foldl_max xs x y hy⟩

theorem pyIndex_ok {α : Type} (l : List α) (n : Nat) (x : α) :
    pyIndex l n = Except.ok x ↔ l.get? n = some x := by
  unfold pyIndex
  cases h : l.get? n <;> simp

theorem avgOr0_of_ne_nil (l : List ℚ) (h : l ≠ []) :
    avgOr0 l = l.sum / (l.length : ℚ) := if_neg h

theorem lvLoop_go (rows : List (Chars × ℚ × ℚ)) :
    ∀ a b : List ℚ,
      rows.foldl lvStep (a, b) =
        (a ++ ((rows.filter fun r => r.1 = lvCode).map fun r => r.2.1),
         b ++ ((rows.filter fun r => r.1 = lvCode).map fun r => r.2.2)) := by
  induction rows with
  | nil => intro a b; simp
  | cons r rs ih =>
    intro a b
    rw [List.foldl_cons]
    by_cases hr : r.1 = lvCode
    · rw [show lvStep (a, b) r = (a ++ [r.2.1], b ++ [r.2.2]) from by simp [lvStep, hr]]
      rw [ih]
      simp [List.filter_cons, hr]
    · rw [show lvStep (a, b) r = (a, b) from by simp [lvStep, hr]]
      rw [ih]
      simp [List.filter_cons, hr]

theorem lvLoop_skip (rows : List (Chars × ℚ × ℚ)) :
    ∀ acc, (∀ r ∈ rows, r.1 ≠ lvCode) → rows.foldl lvStep acc = acc := by
  induction rows with
  | nil => intro acc _; rfl
  | cons r rs ih =>
    intro acc h
    rw [List.foldl_cons,
      show lvStep acc r = acc from by simp [lvStep, h r (List.mem_cons_self _ _)]]
    exact ih acc fun x hx => h x (List.mem_cons_of_mem _ hx)

theorem buildFrom_allOk (ls : List Chars) :
    ∀ d : DataDict, (∀ l ∈ ls, ∃ r, parseRow l = Except.ok r) →
      (buildFrom d ls).1 = none ∧
      (buildFrom d ls).2.month.length = d.month.length + ls.length ∧
      (buildFrom d ls).2.date.length = d.date.length + ls.length ∧
      (buildFrom d ls).2.sample.length = d.sample.length + ls.length ∧
      (buildFrom d ls).2.sampleType.length = d.sampleType.length + ls.length ∧
      (buildFrom d ls).2.harrisResult.length = d.harrisResult.length + ls.length ∧
      (buildFrom d ls).2.trumpResult.length = d.trumpResult.length + ls.length := by
  induction ls with
  | nil => intro d _; simp [buildFrom]
  | cons l ls ih =>
    intro d h
    obtain ⟨r, hr⟩ := h l (List.mem_cons_self _ _)
    obtain ⟨h1, h2, h3, h4, h5, h6, h7⟩ :=
      ih (appendRow d r) fun x hx => h x (List.mem_cons_of_mem _ hx)
    have ha1 : (appendRow d r).month.length = d.month.length + 1 := by simp [appendRow]
    have ha2 : (appendRow d r).date.length = d.date.length + 1 := by simp [appendRow]
    have ha3 : (appendRow d r).sample.length = d.sample.length + 1 := by simp [appendRow]
    have ha4 : (appendRow d r).sampleType.length = d.sampleType.length + 1 := by
      simp [appendRow]
    have ha5 : (appendRow d r).harrisResult.length = d.harrisResult.length + 1 := by
      simp [appendRow]
    have ha6 : (appendRow d r).trumpResult.length = d.trumpResult.length + 1 := by
      simp [appendRow]
    simp only [buildFrom, hr]
    refine ⟨h1, ?_, ?_, ?_, ?_, ?_, ?_⟩ <;> simp only [List.length_cons] <;> omega

theorem buildFrom_partial (pre : List Chars) :
    ∀ (d : DataDict) (rest : List Chars) (bad : Chars) (e : PyErr),
      (∀ l ∈ pre, ∃ r, parseRow l = Except.ok r) →
      parseRow bad = Except.error e →
      buildFrom d (pre ++ bad :: rest) = (some e, (buildFrom d pre).2) := by
  induction pre with
  | nil =>
    intro d rest bad e _ hbad
    simp [buildFrom, hbad]
  | cons l ls ih =>
    intro d rest bad e hpre hbad
    obtain ⟨r, hr⟩ := hpre l (List.mem_cons_self _ _)
    simp only [List.cons_append, buildFrom, hr]
    exact ih (appendRow d r) rest bad e (fun x hx => hpre x (List.mem_cons_of_mem _ hx)) hbad

/-- Full inversion of a successful `parseParts`: comma-fields 1-4 all exist,
the date field parses as an integer, the packed sample field splits into
exactly two tokens whose first parses as an integer, and both result fields
parse as numbers — each conversion yielding exactly the stored row value. -/
theorem parseParts_ok_inv (parts : List Chars) (r : Row)
    (h : parseParts parts = Except.ok r) :
    ∃ s1 s2 sns s3 s4,
      parts.get? 1 = some s1 ∧ pyInt s1 = some r.date ∧
      parts.get? 2 = some s2 ∧ pySplitWs (pyStrip s2) = [sns, r.sampleType] ∧
      pyInt sns = some r.sample ∧
      parts.get? 3 = some s3 ∧ pyFloat s3 = some r.harris ∧
      parts.get? 4 = some s4 ∧ pyFloat s4 = some r.trump := by
  unfold parseParts at h
  cases h0 : pyIndex parts 0 with
  | error e => simp only [h0] at h; exact Except.noConfusion h
  | ok month =>
  simp only [h0] at h
  cases h1 : pyIndex parts 1 with
  | error e => simp only [h1] at h; exact Except.noConfusion h
  | ok p1 =>
  simp only [h1] at h
  cases h2 : pyInt p1 with
  | none => simp only [h2] at h; exact Except.noConfusion h
  | some date =>
  simp only [h2] at h
  cases h3 : pyIndex parts 2 with
  | error e => simp only [h3] at h; exact Except.noConfusion h
  | ok p2 =>
  simp only [h3] at h
  cases h4 : pySplitWs (pyStrip p2) with
  | nil => simp only [h4] at h; exact Except.noConfusion h
  | cons a tl =>
  cases tl with
  | nil => simp only [h4] at h; exact Except.noConfusion h
  | cons b tl2 =>
  cases tl2 with
  | cons c tl3 => simp only [h4] at h; exact Except.noConfusion h
  | nil =>
  simp only [h4] at h
  cases h5 : pyInt a with
  | none => simp only [h5] at h; exact Except.noConfusion h
  | some sample =>
  simp only [h5] at h
  cases h6 : pyIndex parts 3 with
  | error e => simp only [h6] at h; exact Except.noConfusion h
  | ok p3 =>
  simp only [h6] at h
  cases h7 : pyFloat p3 with
  | none => simp only [h7] at h; exact Except.noConfusion h
  | some hq =>
  simp only [h7] at h
  cases h8 : pyIndex parts 4 with
  | error e => simp only [h8] at h; exact Except.noConfusion h
  | ok p4 =>
  simp only [h8] at h
  cases h9 : pyFloat p4 with
  | none => simp only [h9] at h; exact Except.noConfusion h
  | some tq =>
  simp only [h9, Except.ok.injEq] at h
  subst h
  exact ⟨p1, p2, a, p3, p4, (pyIndex_ok parts 1 p1).mp h1, h2,
    (pyIndex_ok parts 2 p2).mp h3, h4, h5,
    (pyIndex_ok parts 3 p3).mp h6, h7, (pyIndex_ok parts 4 p4).mp h8, h9⟩

/-- Inversion of a successful `parseParts`, restricted to the result fields:
a success forces comma-fields 3 and 4 to exist, and the stored results are
exactly what `float()` returned on those fields, with no rescaling. -/
theorem parseParts_ok_fields (parts : List Chars) (r : Row)
    (h : parseParts parts = Except.ok r) :
    ∃ s3 s4, parts.get? 3 = some s3 ∧ pyFloat s3 = some r.harris ∧
      parts.get? 4 = some s4 ∧ pyFloat s4 = some r.trump := by
  obtain ⟨s1, s2, sns, s3, s4, _, _, _, _, _, g6, g7, g8, g9⟩ :=
    parseParts_ok_inv parts r h
  exact ⟨s3, s4, g6, g7, g8, g9⟩

/-- C1: for every table whose Harris-result and Trump-result sequences are
non-empty, `highest_polling_candidate` computes the maximum of the Harris
sequence and the maximum of the Trump sequence independently; if the absolute
difference of the two maxima is below `1e-12` it returns `"EVEN "` followed by
the shared (Harris) maximum times 100 formatted to one decimal place with a
trailing `"%"`; otherwise it returns the winning candidate's name (`"Harris"`
or `"Trump"`) followed by that candidate's maximum formatted the same way. -/
theorem highest_polling_candidate_spec (d : DataDict)
    (hh : d.harrisResult ≠ []) (ht : d.trumpResult ≠ []) :
    ∃ mh mt,
      mh ∈ d.harrisResult ∧ (∀ x ∈ d.harrisResult, x ≤ mh) ∧
      mt ∈ d.trumpResult ∧ (∀ x ∈ d.trumpResult, x ≤ mt) ∧
      highest_polling_candidate d =
        Except.ok
          (if |mh - mt| < 1 / 10 ^ 12 then "EVEN ".data ++ pct1 mh
           else if mh > mt then "Harris ".data ++ pct1 mh
           else "Trump ".data ++ pct1 mt) := by
  obtain ⟨mh, hmh, hmemh, hleh⟩ := pyMax_spec d.harrisResult hh
  obtain ⟨mt, hmt, hmemt, hlemt⟩ := pyMax_spec d.trumpResult ht
  refine ⟨mh, mt, hmemh, hleh, hmemt, hlemt, ?_⟩
  unfold highest_polling_candidate
  simp only [hmh, hmt]
  split_ifs <;> rfl

/-- Witness for C1 at the concrete three-row table `wMax`. -/
theorem highest_polling_candidate_spec_witness :
    ∃ mh mt,
      mh ∈ wMax.harrisResult ∧ (∀ x ∈ wMax.harrisResult, x ≤ mh) ∧
      mt ∈ wMax.trumpResult ∧ (∀ x ∈ wMax.trumpResult, x ≤ mt) ∧
      highest_polling_candidate wMax =
        Except.ok
          (if |mh - mt| < 1 / 10 ^ 12 then "EVEN ".data ++ pct1 mh
           else if mh > mt then "Harris ".data ++ pct1 mh
           else "Trump ".data ++ pct1 mt) :=
  highest_polling_candidate_spec wMax (by decide) (by decide)

/-- C2: for every table with at least one likely-voter row,
`likely_voter_polling_average` returns the pair of the arithmetic mean of the
Harris results and the arithmetic mean of the Trump results over exactly the
rows whose sample type equals `"LV"`, each mean computed independently over
the filtered list (the no-match fallback is C6). -/
theorem likely_voter_polling_average_spec (d : DataDict) (h : lvRows d ≠ []) :
    likely_voter_polling_average d =
      (((lvRows d).map fun r => r.2.1).sum / (((lvRows d).map fun r => r.2.1).length : ℚ),
       ((lvRows d).map fun r => r.2.2).sum / (((lvRows d).map fun r => r.2.2).length : ℚ)) := by
  have h1 : ((lvRows d).map fun r => r.2.1) ≠ [] := by
    intro hc; exact h (List.map_eq_nil_iff.mp hc)
  have h2 : ((lvRows d).map fun r => r.2.2) ≠ [] := by
    intro hc; exact h (List.map_eq_nil_iff.mp hc)
  have key : lvLoop (tableRows d) =
      (((tableRows d).filter fun r => r.1 = lvCode).map fun r => r.2.1,
       ((tableRows d).filter fun r => r.1 = lvCode).map fun r => r.2.2) := by
    have hg := lvLoop_go (tableRows d) [] []
    simpa [lvLoop] using hg
  show (avgOr0 (lvLoop (tableRows d)).1, avgOr0 (lvLoop (tableRows d)).2) = _
  rw [key]
  unfold lvRows at h1 h2
  exact congrArg₂ Prod.mk (avgOr0_of_ne_nil _ h1) (avgOr0_of_ne_nil _ h2)

/-- Witness for C2 at the concrete table `wLV` with rows
`(LV, 0.50, 0.45)`, `(RV, 0.60, 0.40)`, `(LV, 0.48, 0.47)`. -/
theorem likely_voter_polling_average_spec_witness :
    likely_voter_polling_average wLV =
      (((lvRows wLV).map fun r => r.2.1).sum / (((lvRows wLV).map fun r => r.2.1).length : ℚ),
       ((lvRows wLV).map fun r => r.2.2).sum / (((lvRows wLV).map fun r => r.2.2).length : ℚ)) :=
  likely_voter_polling_average_spec wLV (by decide)

/-- C3: for every non-empty table, `polling_history_change` takes the first
30 rows (or all rows when fewer) as the latest slice and the last 30 rows
(or all rows when fewer) as the earliest slice, and returns the pair of
latest-mean minus earliest-mean for Harris and for Trump; a table with fewer
than 30 rows raises no error. -/
theorem polling_history_change_spec (d : DataDict)
    (hh : d.harrisResult ≠ []) (ht : d.trumpResult ≠ []) :
    polling_history_change d =
      ((d.harrisResult.take 30).sum / ((d.harrisResult.take 30).length : ℚ)
         - (d.harrisResult.rtake 30).sum / ((d.harrisResult.rtake 30).length : ℚ),
       (d.trumpResult.take 30).sum / ((d.trumpResult.take 30).length : ℚ)
         - (d.trumpResult.rtake 30).sum / ((d.trumpResult.rtake 30).length : ℚ)) := by
  have hp1 : 0 < d.harrisResult.length := List.length_pos.mpr hh
  have hp2 : 0 < d.trumpResult.length := List.length_pos.mpr ht
  have t1 : d.harrisResult.take 30 ≠ [] := by
    intro hc
    have := congrArg List.length hc
    simp only [List.length_take, List.length_nil] at this
    omega
  have t2 : d.trumpResult.take 30 ≠ [] := by
    intro hc
    have := congrArg List.length hc
    simp only [List.length_take, List.length_nil] at this
    omega
  have e1 : d.harrisResult.drop (d.harrisResult.length - 30) ≠ [] := by
    intro hc
    have := congrArg List.length hc
    simp only [List.length_drop, List.length_nil] at this
    omega
  have e2 : d.trumpResult.drop (d.trumpResult.length - 30) ≠ [] := by
    intro hc
    have := congrArg List.length hc
    simp only [List.length_drop, List.length_nil] at this
    omega
  show (avgOr0 (d.harrisResult.take 30)
          - avgOr0 (d.harrisResult.drop (d.harrisResult.length - 30)),
        avgOr0 (d.trumpResult.take 30)
          - avgOr0 (d.trumpResult.drop (d.trumpResult.length - 30))) = _
  rw [avgOr0_of_ne_nil _ t1, avgOr0_of_ne_nil _ t2, avgOr0_of_ne_nil _ e1,
    avgOr0_of_ne_nil _ e2]
  rfl

/-- Witness for C3 at the three-row table `wMax`, which also exercises the
fewer-than-30-rows boundary (both slices are the whole table). -/
theorem polling_history_change_spec_witness :
    polling_history_change wMax =
      ((wMax.harrisResult.take 30).sum / ((wMax.harrisResult.take 30).length : ℚ)
         - (wMax.harrisResult.rtake 30).sum / ((wMax.harrisResult.rtake 30).length : ℚ),
       (wMax.trumpResult.take 30).sum / ((wMax.trumpResult.take 30).length : ℚ)
         - (wMax.trumpResult.rtake 30).sum / ((wMax.trumpResult.rtake 30).length : ℚ)) :=
  polling_history_change_spec wMax (by decide) (by decide)

/-- C4 fails as stated: empty lines among the data lines are not skipped.
`c4Input` has two non-empty lines (header plus one good data line), so the
claim predicts one parsed row; instead the empty second line raises an
`IndexError` at `parts[1]`, aborting the parse with zero rows stored. -/
theorem build_data_dict_count_cx :
    build_data_dict emptyDataDict c4Input = (some PyErr.indexError, emptyDataDict) ∧
    ¬ allSixLen (build_data_dict emptyDataDict c4Input).2 1 := by
  constructor
  · decide
  · decide

/-- C4 (amended): for every input all of whose data lines parse successfully,
`build_data_dict` raises nothing, the number of parsed rows equals the number
of lines minus one (the header is discarded), and all six internal sequences
have exactly this common length.  (An empty data line is not skipped: it is
malformed and aborts the parse, as the counterexample shows.) -/
theorem build_data_dict_count (raw : List Chars)
    (h : ∀ l ∈ raw.drop 1, ∃ r, parseRow l = Except.ok r) :
    (build_data_dict emptyDataDict raw).1 = none ∧
    allSixLen (build_data_dict emptyDataDict raw).2 (raw.length - 1) := by
  obtain ⟨h1, h2, h3, h4, h5, h6, h7⟩ := buildFrom_allOk (raw.drop 1) emptyDataDict h
  have hlen : (raw.drop 1).length = raw.length - 1 := by
    simp [List.length_drop]
  have hz1 : emptyDataDict.month.length = 0 := rfl
  have hz2 : emptyDataDict.date.length = 0 := rfl
  have hz3 : emptyDataDict.sample.length = 0 := rfl
  have hz4 : emptyDataDict.sampleType.length = 0 := rfl
  have hz5 : emptyDataDict.harrisResult.length = 0 := rfl
  have hz6 : emptyDataDict.trumpResult.length = 0 := rfl
  refine ⟨h1, ?_, ?_, ?_, ?_, ?_, ?_⟩ <;> simp only [build_data_dict] <;> omega

/-- Witness for C4 (amended) at a concrete two-data-line input. -/
theorem build_data_dict_count_witness :
    (build_data_dict emptyDataDict c4GoodInput).1 = none ∧
    allSixLen (build_data_dict emptyDataDict c4GoodInput).2 (c4GoodInput.length - 1) :=
  build_data_dict_count c4GoodInput (by
    intro l hl
    fin_cases hl <;> exact ⟨_, rfl⟩)

/-- C5 fails as stated: on a data line whose result fields are `57.0` and
`53.2` the stored Harris value is the verbatim `57.0`, not the fraction
`0.570`, and it is not in `[0,1]`. -/
theorem stored_results_verbatim_cx :
    (parseRow c5Line).map Row.harris = Except.ok 57 ∧
    (57 : ℚ) ≠ 57 / 100 ∧ ¬ (57 : ℚ) ≤ 1 := by
  refine ⟨?_, by norm_num, by norm_num⟩
  have h : parseRow c5Line =
      Except.ok ⟨"October".data, 15, 1500, "LV".data,
        ((57 : ℕ) : ℚ) + ((0 : ℕ) : ℚ) / (10 : ℚ) ^ 1,
        ((53 : ℕ) : ℚ) + ((2 : ℕ) : ℚ) / (10 : ℚ) ^ 1⟩ := rfl
  rw [h]
  simp only [Except.map]
  norm_num

/-- C5 (amended): the parser stores the result fields verbatim — for every
successfully parsed line, the stored Harris and Trump values are exactly what
`float()` returns on comma-fields 3 and 4, with no division by 100; the
stored value is therefore a fraction in `[0,1]` exactly when the CSV text
already denotes one, which is the convention of the reference data and is
consistent with the `value * 100` display formatting. -/
theorem stored_results_verbatim (i : Chars) (r : Row)
    (h : parseRow i = Except.ok r) :
    ∃ s3 s4, (pySplitComma (pyStrip i)).get? 3 = some s3 ∧ pyFloat s3 = some r.harris ∧
      (pySplitComma (pyStrip i)).get? 4 = some s4 ∧ pyFloat s4 = some r.trump :=
  parseParts_ok_fields (pySplitComma (pyStrip i)) r h

/-- Witness for C5 (amended) at a concrete line with integer result
literals. -/
theorem stored_results_verbatim_witness :
    parseRow c5IntLine = Except.ok c5IntRow ∧
    ∃ s3 s4, (pySplitComma (pyStrip c5IntLine)).get? 3 = some s3 ∧
      pyFloat s3 = some c5IntRow.harris ∧
      (pySplitComma (pyStrip c5IntLine)).get? 4 = some s4 ∧
      pyFloat s4 = some c5IntRow.trump :=
  ⟨by decide, stored_results_verbatim c5IntLine c5IntRow (by decide)⟩

/-- C6: for every table in which no row has sample type `"LV"` (including the
zero-row table), `likely_voter_polling_average` returns exactly `(0.0, 0.0)`:
no error and no NaN. -/
theorem likely_voter_no_lv (d : DataDict)
    (h : ∀ st ∈ d.sampleType, st ≠ lvCode) :
    likely_voter_polling_average d = (0, 0) := by
  have hr : ∀ r ∈ tableRows d, r.1 ≠ lvCode := by
    intro r hrm
    obtain ⟨a, bc⟩ := r
    exact h a (List.of_mem_zip hrm).1
  show (avgOr0 (lvLoop (tableRows d)).1, avgOr0 (lvLoop (tableRows d)).2) = _
  rw [show lvLoop (tableRows d) = ([], []) from lvLoop_skip (tableRows d) ([], []) hr]
  rfl

/-- Witness for C6 at a concrete all-registered-voter table. -/
theorem likely_voter_no_lv_witness :
    (∀ st ∈ wRV.sampleType, st ≠ lvCode) ∧
    likely_voter_polling_average wRV = (0, 0) :=
  ⟨by decide, likely_voter_no_lv wRV (by decide)⟩

/-- C7 fails as stated: a six-field data line (wrong comma-field count) parses
successfully instead of failing, and the exception for a malformed line names
no line number — the same bad line placed as data line 2 (in `c7InputA`) and
as data line 4 (in `c7InputB`) raises the identical exception value, which
therefore cannot identify the line. -/
theorem parse_error_shape_cx :
    (parseRow sixFieldLine).toOption.isSome = true ∧
    (build_data_dict emptyDataDict c7InputA).1 = some (PyErr.intValueError "xx".data) ∧
    (build_data_dict emptyDataDict c7InputB).1 = some (PyErr.intValueError "xx".data) := by
  refine ⟨by decide, by decide, by decide⟩

/-- C7 (amended): a data line with fewer than five comma-separated fields, a
non-integer date token, a packed sample field that does not split into
exactly two whitespace-separated tokens, a non-integer sample-size token, or
a non-numeric result field makes `parseRow` fail, so the first such line
aborts the whole parse; lines with more than five fields are accepted with
the extra fields ignored, and the raised exception does not name the line
number. -/
theorem malformed_line_error (l : Chars)
    (h : (pySplitComma (pyStrip l)).length < 5 ∨
      (∃ s1, (pySplitComma (pyStrip l)).get? 1 = some s1 ∧ pyInt s1 = none) ∨
      (∃ s2, (pySplitComma (pyStrip l)).get? 2 = some s2 ∧
        (pySplitWs (pyStrip s2)).length ≠ 2) ∨
      (∃ s2 sns st, (pySplitComma (pyStrip l)).get? 2 = some s2 ∧
        pySplitWs (pyStrip s2) = [sns, st] ∧ pyInt sns = none) ∨
      (∃ s3, (pySplitComma (pyStrip l)).get? 3 = some s3 ∧ pyFloat s3 = none) ∨
      (∃ s4, (pySplitComma (pyStrip l)).get? 4 = some s4 ∧ pyFloat s4 = none)) :
    ∃ e, parseRow l = Except.error e := by
  cases hp : parseRow l with
  | error e => exact ⟨e, rfl⟩
  | ok r =>
    exfalso
    obtain ⟨s1, s2, sns, s3, s4, g1, g2, g3, g4, g5, g6, g7, g8, g9⟩ :=
      parseParts_ok_inv (pySplitComma (pyStrip l)) r hp
    rcases h with h | h | h | h | h | h
    · have h5 := (List.get?_eq_some.mp g8).1
      omega
    · obtain ⟨t, ht, hbad⟩ := h
      rw [g1] at ht
      injection ht with ht
      subst ht
      rw [hbad] at g2
      exact Option.noConfusion g2
    · obtain ⟨t, ht, hbad⟩ := h
      rw [g3] at ht
      injection ht with ht
      subst ht
      rw [g4] at hbad
      simp at hbad
    · obtain ⟨t, a2, b2, ht, hsplit, hbad⟩ := h
      rw [g3] at ht
      injection ht with ht
      subst ht
      rw [g4] at hsplit
      simp only [List.cons.injEq, and_true] at hsplit
      obtain ⟨hs1, hs2⟩ := hsplit
      subst hs1
      rw [hbad] at g5
      exact Option.noConfusion g5
    · obtain ⟨t, ht, hbad⟩ := h
      rw [g6] at ht
      injection ht with ht
      subst ht
      rw [hbad] at g7
      exact Option.noConfusion g7
    · obtain ⟨t, ht, hbad⟩ := h
      rw [g8] at ht
      injection ht with ht
      subst ht
      rw [hbad] at g9
      exact Option.noConfusion g9

/-- Witness for C7 (amended) at four concrete malformed lines: the empty line
(one comma field), a packed sample field that yields a single token, a
non-integer sample-size token, and a non-numeric Harris result field — each
makes `parseRow` fail. -/
theorem malformed_line_error_witness :
    ((pySplitComma (pyStrip ([] : Chars))).length < 5 ∧
      ∃ e, parseRow ([] : Chars) = Except.error e) ∧
    ((pySplitWs (pyStrip "1500LV".data)).length ≠ 2 ∧
      ∃ e, parseRow badPackLine = Except.error e) ∧
    (pyInt "15x0".data = none ∧
      ∃ e, parseRow badSampleLine = Except.error e) ∧
    (pyFloat "abc".data = none ∧
      ∃ e, parseRow badFloatLine = Except.error e) :=
  ⟨⟨by decide, malformed_line_error [] (Or.inl (by decide))⟩,
   ⟨by decide, malformed_line_error badPackLine
      (Or.inr (Or.inr (Or.inl ⟨"1500LV".data, by decide, by decide⟩)))⟩,
   ⟨by decide, malformed_line_error badSampleLine
      (Or.inr (Or.inr (Or.inr (Or.inl
        ⟨"15x0 LV".data, "15x0".data, "LV".data, by decide, by decide, by decide⟩))))⟩,
   ⟨by decide, malformed_line_error badFloatLine
      (Or.inr (Or.inr (Or.inr (Or.inr (Or.inl ⟨"abc".data, by decide, by decide⟩)))))⟩⟩

/-- C8 fails as stated: on `c8Input` (header, one good line, one bad line)
the parse fails, yet the table is not in its prior empty state — the good
first row remains stored. -/
theorem partial_table_cx :
    (build_data_dict emptyDataDict c8Input).1 = some (PyErr.intValueError "xx".data) ∧
    (build_data_dict emptyDataDict c8Input).2 ≠ emptyDataDict := by
  refine ⟨by decide, by decide⟩

/-- C8 (amended): when a later data line is malformed, the parse aborts with
that line's exception and the six sequences afterwards hold exactly the rows
parsed from the well-formed prefix before the first bad line — a partial
table is exposed, not the pre-call state. -/
theorem build_data_dict_partial (hdr : Chars) (d : DataDict) (pre rest : List Chars)
    (bad : Chars) (e : PyErr)
    (hpre : ∀ l ∈ pre, ∃ r, parseRow l = Except.ok r)
    (hbad : parseRow bad = Except.error e) :
    build_data_dict d (hdr :: (pre ++ bad :: rest)) = (some e, (buildFrom d pre).2) := by
  show buildFrom d (List.drop 1 (hdr :: (pre ++ bad :: rest))) = _
  rw [List.drop_succ_cons, List.drop_zero]
  exact buildFrom_partial pre d rest bad e hpre hbad

/-- Witness for C8 (amended) at a concrete one-good-line prefix. -/
theorem build_data_dict_partial_witness :
    build_data_dict emptyDataDict (hdrLine :: ([goodLineA] ++ badIntLine :: [])) =
      (some (PyErr.intValueError "xx".data), (buildFrom emptyDataDict [goodLineA]).2) := by
  have hpre : ∀ l ∈ [goodLineA], ∃ r, parseRow l = Except.ok r := by
    intro l hl
    simp only [List.mem_singleton] at hl
    subst hl
    exact ⟨_, rfl⟩
  exact build_data_dict_partial hdrLine emptyDataDict [goodLineA] [] badIntLine
    (PyErr.intValueError "xx".data) hpre (by decide)

/-- C9: each of the three query methods leaves all six sequences of the table
unchanged — the post-state of each method equals its pre-state, whether the
query succeeds or fails (the method bodies contain no assignment to
`self.data_dict`). -/
theorem queries_preserve_table (d : DataDict) :
    (highest_polling_candidate_m d).2 = d ∧
    (likely_voter_polling_average_m d).2 = d ∧
    (polling_history_change_m d).2 = d :=
  ⟨rfl, rfl, rfl⟩

/-- C10: on the zero-row table, `polling_history_change` raises no error and
returns exactly `(0.0, 0.0)` — each empty slice's average falls back to 0.0 —
while `highest_polling_candidate` fails on the same empty table. -/
theorem polling_history_change_empty :
    polling_history_change emptyDataDict = (0, 0) ∧
    highest_polling_candidate emptyDataDict = Except.error PyErr.maxEmpty := by
  constructor
  · show (avgOr0 _ - avgOr0 _, avgOr0 _ - avgOr0 _) = _
    simp [emptyDataDict, avgOr0]
  · rfl
